import Mathlib

/-!
Shallow embedding of the tradestick market-simulation engine, covering the
two simulator implementations:

* `Backend` — `src/backend/src/marketSimulator.js` (class `MarketSimulator`):
  GBM price step, amplitude controller, multi-interval candle aggregator,
  order-book builder, trade executor, config merge.
* `Frontend` — the pattern-driven simulator (`MarketSimulator` in the
  TypeScript sources): clamped price update, pattern drift model, single
  1000 ms candle list capped at 500, config merge with pattern reset.

Modelling conventions:
* JS numbers are embedded as `ℚ` (exact rational arithmetic stands in for
  float64; floating-point rounding is out of scope).
* Calls to `Math.random()` / `normalRandom()` are nondeterministic, so every
  value derived from them (volumes, normal samples) is passed in as an
  explicit argument.
* The transcendental `Math.exp(priceChange)` is abstracted: price-step
  functions take `expPriceChange`, the value of `Math.exp(priceChange)`,
  as an argument; theorems carry the hypothesis `0 < expPriceChange`,
  which is true of the real exponential.
* `Math.floor` is `Int.floor` on `ℚ`; JS `x || d` (default on falsy) is
  modelled by `jsOr`, mapping `0`/absent to the default.
-/

/-- Trade side, the `side` field of a trade (`'buy' | 'sell'`). -/
inductive Side where
  | buy
  | sell
deriving DecidableEq, Repr

/-- `MarketPatternType` from the frontend simulator. -/
inductive MarketPatternType where
  | random_walk
  | uptrend
  | downtrend
  | volatile
  | sideways
  | breakout_up
  | breakout_down
  | head_and_shoulders
  | double_top
  | double_bottom
deriving DecidableEq, Repr

/-- An OHLCV candle (`timestamp` is the bucket start). Volumes in both
sources are sums of `Math.floor(Math.random()*k)` draws, hence naturals. -/
structure Candle where
  timestamp : ℚ
  «open» : ℚ
  high : ℚ
  low : ℚ
  close : ℚ
  volume : ℕ
deriving DecidableEq, Repr

/-- An executed trade. The JS `id` (`Date.now().toString()`) is modelled as
the numeric timestamp it stringifies. -/
structure Trade where
  id : ℚ
  timestamp : ℚ
  side : Side
  size : ℚ
  price : ℚ
  value : ℚ
deriving DecidableEq, Repr

/-- One level of the synthetic order book. -/
structure OrderBookLevel where
  price : ℚ
  volume : ℕ
deriving DecidableEq, Repr

/-- The synthetic order book: bid and ask ladders. -/
structure OrderBook where
  bids : List OrderBookLevel
  asks : List OrderBookLevel
deriving DecidableEq, Repr

/-- JS `x || d`: `x` when present and truthy (a number is falsy exactly when
it is `0`), else the default `d`. -/
def jsOr (x : Option ℚ) (d : ℚ) : ℚ :=
  match x with
  | some v => if v = 0 then d else v
  | none => d

namespace Backend

/-- Backend price step (`generateMarketData`, the line
`this.currentPrice *= Math.exp(priceChange)`); `expPriceChange` stands for
`Math.exp(priceChange)`.  There is no floor clamp in the backend. -/
def gbmPriceStep (currentPrice expPriceChange : ℚ) : ℚ :=
  currentPrice * expPriceChange

/-- Simulator state relevant to `executeTrade`: the config fields it reads,
the trade log and the rate-limit clock (`this.lastTradeTime`, initially 0). -/
structure TradeState where
  currentPrice : ℚ
  spread : ℚ
  maxTradeSize : ℚ
  maxTradesPerSecond : ℚ
  lastTradeTime : ℚ
  trades : List Trade
deriving DecidableEq, Repr

/-- Result of `executeTrade`: `{success:false, message:...}` on the two
rejections, `{success:true, trade}` on a fill. -/
inductive TradeResult where
  | rateLimited
  | sizeExceeded
  | success (t : Trade)
deriving DecidableEq, Repr

/-- `executeTrade(trade)` from the backend: rate-limit check, size check,
fill at `currentPrice ± spread/2`, push to `trades`, trim to the last 50
(`slice(-50)` = `drop (length - 50)`), set `lastTradeTime = now`. -/
def executeTrade (st : TradeState) (now : ℚ) (side : Side) (size : ℚ) :
    TradeResult × TradeState :=
  if now - st.lastTradeTime < 1000 / st.maxTradesPerSecond then
    (.rateLimited, st)
  else if |size| > st.maxTradeSize then
    (.sizeExceeded, st)
  else
    let price : ℚ :=
      match side with
      | .buy => st.currentPrice + st.spread / 2
      | .sell => st.currentPrice - st.spread / 2
    let t : Trade :=
      { id := now, timestamp := now, side := side, size := size,
        price := price, value := |size| * price }
    let ts := st.trades ++ [t]
    let ts := if ts.length > 50 then ts.drop (ts.length - 50) else ts
    (.success t, { st with trades := ts, lastTradeTime := now })

/-- One trade attempt, keeping only the state (the driver discards results
it does not inspect). -/
def tradeStep (st : TradeState) (x : ℚ × Side × ℚ) : TradeState :=
  (executeTrade st x.1 x.2.1 x.2.2).2

/-- A sequence of trade attempts against the simulator. -/
def runTrades (st : TradeState) (xs : List (ℚ × Side × ℚ)) : TradeState :=
  xs.foldl tradeStep st

/-- Constructor state for the trade executor: empty log, `lastTradeTime = 0`. -/
def initTradeState (price spread maxSize mtps : ℚ) : TradeState :=
  { currentPrice := price, spread := spread, maxTradeSize := maxSize,
    maxTradesPerSecond := mtps, lastTradeTime := 0, trades := [] }

/-- Per-interval candle-aggregator state (`candlesByInterval[i]`,
`currentCandles[i]`, `lastCandleTimes[i]` for one interval `i`). -/
structure AggState where
  series : List Candle
  current : Option Candle
  lastCandleTime : ℚ
deriving DecidableEq, Repr

/-- Constructor state of the aggregator: empty series, no current candle,
`lastCandleTimes[interval] = 0`. -/
def initAggState : AggState :=
  { series := [], current := none, lastCandleTime := 0 }

/-- `updateCandleForInterval(interval, now, price)`.  `vol0` is the random
initial volume `Math.floor(Math.random()*100000)` and `volInc` the random
in-candle increment `Math.floor(Math.random()*10000)`.  A closed candle is
pushed and the series trimmed to the last 200 (`slice(-200)`). -/
def updateCandleForInterval (interval : ℚ) (now price : ℚ) (vol0 volInc : ℕ)
    (st : AggState) : AggState :=
  let intervalStart : ℚ := (⌊now / interval⌋ : ℤ) * interval
  if intervalStart > st.lastCandleTime then
    let series :=
      match st.current with
      | some c =>
        let s := st.series ++ [c]
        if s.length > 200 then s.drop (s.length - 200) else s
      | none => st.series
    { series := series,
      current := some { timestamp := intervalStart, «open» := price,
                        high := price, low := price, close := price,
                        volume := vol0 },
      lastCandleTime := intervalStart }
  else
    match st.current with
    | some c =>
      { st with
        current := some { c with high := max c.high price,
                                 low := min c.low price,
                                 close := price,
                                 volume := c.volume + volInc } }
    | none => st

/-- A sequence of ticks fed to one interval's aggregator; each entry is
`(now, price, vol0, volInc)`. -/
def runCandles (interval : ℚ) (st : AggState)
    (xs : List (ℚ × ℚ × ℕ × ℕ)) : AggState :=
  xs.foldl (fun s x => updateCandleForInterval interval x.1 x.2.1 x.2.2.1 x.2.2.2 s) st

/-- `generateOrderBook(bidPrice, askPrice)`: `orderBookLevels` levels per
side, bid level `i` at `bidPrice - i*spread*0.2`, ask level `i` at
`askPrice + i*spread*0.2`; per-level volumes are independent random draws,
passed in as `bidVols` / `askVols`. -/
def generateOrderBook (bidPrice askPrice : ℚ) (orderBookLevels : ℕ)
    (spread : ℚ) (bidVols askVols : ℕ → ℕ) : OrderBook :=
  { bids := (List.range orderBookLevels).map
      (fun (i : ℕ) => { price := bidPrice - (i : ℚ) * spread * (1/5), volume := bidVols i }),
    asks := (List.range orderBookLevels).map
      (fun (i : ℕ) => { price := askPrice + (i : ℚ) * spread * (1/5), volume := askVols i }) }

/-- Backend configuration (the fields the simulator reads). -/
structure Config where
  initialPrice : ℚ
  volatility : ℚ
  spread : ℚ
  updateInterval : ℚ
  orderBookLevels : ℕ
  maxTradeSize : ℚ
  maxTradesPerSecond : ℚ
  candleInterval : ℚ
  priceChangeThreshold15s : ℚ
  priceChangeThreshold1m : ℚ
  priceChangeThreshold15m : ℚ
  priceChangeThreshold1h : ℚ
deriving DecidableEq, Repr

/-- A partial configuration update (`newConfig`): absent fields are `none`. -/
structure ConfigUpdate where
  initialPrice : Option ℚ := none
  volatility : Option ℚ := none
  spread : Option ℚ := none
  updateInterval : Option ℚ := none
  orderBookLevels : Option ℕ := none
  maxTradeSize : Option ℚ := none
  maxTradesPerSecond : Option ℚ := none
  candleInterval : Option ℚ := none
  priceChangeThreshold15s : Option ℚ := none
  priceChangeThreshold1m : Option ℚ := none
  priceChangeThreshold15m : Option ℚ := none
  priceChangeThreshold1h : Option ℚ := none
deriving DecidableEq, Repr

/-- Backend `updateConfig(newConfig)`:
`this.config = { ...this.config, ...newConfig }` — an unvalidated merge;
every provided field overwrites the previous value, nothing is checked and
nothing is returned. -/
def updateConfig (cfg : Config) (u : ConfigUpdate) : Config :=
  { initialPrice := u.initialPrice.getD cfg.initialPrice,
    volatility := u.volatility.getD cfg.volatility,
    spread := u.spread.getD cfg.spread,
    updateInterval := u.updateInterval.getD cfg.updateInterval,
    orderBookLevels := u.orderBookLevels.getD cfg.orderBookLevels,
    maxTradeSize := u.maxTradeSize.getD cfg.maxTradeSize,
    maxTradesPerSecond := u.maxTradesPerSecond.getD cfg.maxTradesPerSecond,
    candleInterval := u.candleInterval.getD cfg.candleInterval,
    priceChangeThreshold15s := u.priceChangeThreshold15s.getD cfg.priceChangeThreshold15s,
    priceChangeThreshold1m := u.priceChangeThreshold1m.getD cfg.priceChangeThreshold1m,
    priceChangeThreshold15m := u.priceChangeThreshold15m.getD cfg.priceChangeThreshold15m,
    priceChangeThreshold1h := u.priceChangeThreshold1h.getD cfg.priceChangeThreshold1h }

/-- Amplitude tracker for one lookback window
(`this.priceChangeTrackers[key]`). -/
structure Tracker where
  startTime : ℚ
  startPrice : ℚ
  minPrice : ℚ
  maxPrice : ℚ
deriving DecidableEq, Repr

/-- One iteration of the per-tick volatility-multiplier loop of
`generateMarketData`: the window `w` carries `(windowMs, thresholdPct,
tracker)` where `thresholdPct` is `this.config[tf.configKey] || 0`, and `m`
is the running `volatilityMultiplier`.  A zero threshold is skipped
(`if (thresholdPct === 0) continue`), so the boost division by the
threshold is never reached for it. -/
def windowStep (now : ℚ) (m : ℚ) (w : ℚ × ℚ × Tracker) : ℚ :=
  let ms := w.1
  let thresholdPct := w.2.1
  let tracker := w.2.2
  if thresholdPct = 0 then m
  else
    let amplitude := (tracker.maxPrice - tracker.minPrice) / tracker.startPrice * 100
    let elapsed := now - tracker.startTime
    let progress := min 1 (elapsed / ms)
    if progress > 3/5 ∧ amplitude < thresholdPct then
      max m (1 + ((thresholdPct - amplitude) / thresholdPct) * (progress - 3/5) * 5)
    else m

/-- The multiplier the loop returns: the fold of `windowStep` starting at
`1.0` over the four timeframes. -/
def tickMultiplier (now : ℚ) (windows : List (ℚ × ℚ × Tracker)) : ℚ :=
  windows.foldl (windowStep now) 1

end Backend

namespace Frontend

/-- Frontend price clamp (`updatePrice`, the lines
`this.currentPrice *= Math.exp(priceChange); this.currentPrice =
Math.max(this.currentPrice, 0.00001)`); `expPriceChange` stands for
`Math.exp(priceChange)`. -/
def updatePriceClamp (currentPrice expPriceChange : ℚ) : ℚ :=
  max (currentPrice * expPriceChange) (1 / 100000)

/-- Frontend candle list (`this.candles`; the last element is the current
open candle). -/
structure CandleState where
  candles : List Candle
deriving DecidableEq, Repr

/-- Frontend `updateCandle(timestamp)` with the current price `price`
passed explicitly (`this.currentPrice` at the call site): interval is fixed
at 1000 ms; a new candle is pushed when the list is empty or the last
candle's bucket is older, and the list is trimmed to the last 500
(`slice(-500)`); otherwise the last candle is updated in place.  `vol0` is
`Math.floor(Math.random()*100)` and `volInc` `Math.floor(Math.random()*10)`. -/
def updateCandle (timestamp price : ℚ) (vol0 volInc : ℕ)
    (st : CandleState) : CandleState :=
  let interval : ℚ := 1000
  let intervalStart : ℚ := (⌊timestamp / interval⌋ : ℤ) * interval
  match st.candles.getLast? with
  | none =>
    { candles := [{ timestamp := intervalStart, «open» := price, high := price,
                    low := price, close := price, volume := vol0 }] }
  | some last =>
    if last.timestamp < intervalStart then
      let s := st.candles ++
        [{ timestamp := intervalStart, «open» := price, high := price,
           low := price, close := price, volume := vol0 }]
      { candles := if s.length > 500 then s.drop (s.length - 500) else s }
    else
      { candles := st.candles.dropLast ++
          [{ last with high := max last.high price, low := min last.low price,
                       close := price, volume := last.volume + volInc }] }

/-- A sequence of ticks fed to the frontend candle list; each entry is
`(timestamp, price, vol0, volInc)`. -/
def runCandles (st : CandleState) (xs : List (ℚ × ℚ × ℕ × ℕ)) : CandleState :=
  xs.foldl (fun s x => updateCandle x.1 x.2.1 x.2.2.1 x.2.2.2 s) st

/-- Frontend `SimulatorConfig`; `patternType`, `patternStrength` and
`patternDuration` are optional fields. -/
structure SimulatorConfig where
  initialPrice : ℚ
  volatility : ℚ
  spread : ℚ
  updateInterval : ℚ
  orderBookLevels : ℕ
  patternType : Option MarketPatternType := none
  patternStrength : Option ℚ := none
  patternDuration : Option ℚ := none
deriving DecidableEq, Repr

/-- A `Partial<SimulatorConfig>` update: absent fields are `none`. -/
structure ConfigUpdate where
  initialPrice : Option ℚ := none
  volatility : Option ℚ := none
  spread : Option ℚ := none
  updateInterval : Option ℚ := none
  orderBookLevels : Option ℕ := none
  patternType : Option MarketPatternType := none
  patternStrength : Option ℚ := none
  patternDuration : Option ℚ := none
deriving DecidableEq, Repr

/-- The frontend simulator's pattern-relevant state. -/
structure SimState where
  config : SimulatorConfig
  currentPrice : ℚ
  patternStartTime : ℚ
  patternProgress : ℚ
  patternBasePrice : ℚ
deriving DecidableEq, Repr

/-- Frontend `updateConfig(config)`:
`this.config = { ...this.config, ...config }`, then
`if (config.patternType) { patternStartTime = now; patternProgress = 0;
patternBasePrice = currentPrice }` — the reset fires whenever the update
CONTAINS a `patternType` field (pattern-type names are truthy strings),
whether or not it differs from the current one. -/
def updateConfig (st : SimState) (now : ℚ) (u : ConfigUpdate) : SimState :=
  let cfg : SimulatorConfig :=
    { initialPrice := u.initialPrice.getD st.config.initialPrice,
      volatility := u.volatility.getD st.config.volatility,
      spread := u.spread.getD st.config.spread,
      updateInterval := u.updateInterval.getD st.config.updateInterval,
      orderBookLevels := u.orderBookLevels.getD st.config.orderBookLevels,
      patternType := u.patternType.orElse (fun _ => st.config.patternType),
      patternStrength := u.patternStrength.orElse (fun _ => st.config.patternStrength),
      patternDuration := u.patternDuration.orElse (fun _ => st.config.patternDuration) }
  if u.patternType.isSome then
    { st with config := cfg, patternStartTime := now, patternProgress := 0,
              patternBasePrice := st.currentPrice }
  else
    { st with config := cfg }

/-- Pattern progress as computed in `updatePrice`:
`Math.min(1, (now - patternStartTime) / (patternDuration || 30000))`. -/
def patternProgressAt (now patternStartTime : ℚ) (patternDuration : Option ℚ) : ℚ :=
  min 1 ((now - patternStartTime) / jsOr patternDuration 30000)

/-- `getPatternDrift(deltaTime)`, with the `normalRandom()` draw of the
`volatile` arm passed in as `normalSample`.  `strength` is
`patternStrength || 0.5`. -/
def getPatternDrift (cfg : SimulatorConfig)
    (patternProgress patternBasePrice currentPrice normalSample : ℚ) : ℚ :=
  let strength := jsOr cfg.patternStrength (1/2)
  let adjustedStrength := strength * (1/100)
  match cfg.patternType with
  | some .uptrend => adjustedStrength
  | some .downtrend => -adjustedStrength
  | some .volatile => normalSample * adjustedStrength * 3
  | some .sideways => (patternBasePrice - currentPrice) * (1/100) * adjustedStrength
  | some .breakout_up =>
    if patternProgress < 7/10 then (patternBasePrice - currentPrice) * (1/100)
    else adjustedStrength * 3
  | some .breakout_down =>
    if patternProgress < 7/10 then (patternBasePrice - currentPrice) * (1/100)
    else -adjustedStrength * 3
  | some .head_and_shoulders =>
    if patternProgress < 1/4 then adjustedStrength
    else if patternProgress < 3/10 then -adjustedStrength
    else if patternProgress < 1/2 then adjustedStrength * (3/2)
    else if patternProgress < 11/20 then -adjustedStrength * (3/2)
    else if patternProgress < 3/4 then adjustedStrength
    else -adjustedStrength * 2
  | some .double_top =>
    if patternProgress < 3/10 then adjustedStrength
    else if patternProgress < 2/5 then -adjustedStrength
    else if patternProgress < 7/10 then adjustedStrength
    else -adjustedStrength * 2
  | some .double_bottom =>
    if patternProgress < 3/10 then -adjustedStrength
    else if patternProgress < 2/5 then adjustedStrength
    else if patternProgress < 7/10 then -adjustedStrength
    else adjustedStrength * 2
  | some .random_walk => 0
  | none => 0

/-- The drift term assembled in `updatePrice`: the constant base drift
`0.0001`, plus the pattern drift exactly when a pattern type is configured
(`if (this.config.patternType) { ... drift += this.getPatternDrift(...) }`) —
the pattern contribution depends on the clamped progress only, never on
whether the duration has expired. -/
def tickDrift (cfg : SimulatorConfig)
    (patternProgress patternBasePrice currentPrice normalSample : ℚ) : ℚ :=
  if cfg.patternType.isSome then
    1/10000 + getPatternDrift cfg patternProgress patternBasePrice currentPrice normalSample
  else
    1/10000

end Frontend

/-! ## Theorems -/

lemma Backend.gbm_fold_pos (fs : List ℚ) :
    ∀ p0 : ℚ, 0 < p0 → (∀ f ∈ fs, 0 < f) → 0 < fs.foldl Backend.gbmPriceStep p0 := by
  induction fs with
  | nil => intro p0 h _; simpa using h
  | cons f fs ih =>
    intro p0 hp hf
    simp only [List.foldl_cons]
    exact ih _ (mul_pos hp (hf f (by simp))) (fun g hg => hf g (by simp [hg]))

lemma Frontend.clamp_fold_pos (fs : List ℚ) :
    ∀ p0 : ℚ, 0 < p0 → 0 < fs.foldl Frontend.updatePriceClamp p0 := by
  induction fs with
  | nil => intro p0 h; simpa using h
  | cons f fs ih =>
    intro p0 hp
    simp only [List.foldl_cons]
    exact ih _ (lt_of_lt_of_le (by norm_num) (le_max_right _ _))

/-- C1 counterexample: the backend price update performs no floor-clamp.
At `currentPrice = 1` with an extreme downward tick whose
`exp(priceChange)` factor is `1/1000000`, the backend leaves the price at
`1/1000000` — strictly below the epsilon `0.00001` the claim says the
price update clamps to — whereas the frontend's clamped update of the same
tick returns exactly `0.00001`. -/
theorem C1_counterexample :
    Backend.gbmPriceStep 1 (1/1000000) = 1/1000000 ∧
    Backend.gbmPriceStep 1 (1/1000000) < 1/100000 ∧
    Frontend.updatePriceClamp 1 (1/1000000) = 1/100000 := by
  refine ⟨by norm_num [Backend.gbmPriceStep], by norm_num [Backend.gbmPriceStep], ?_⟩
  unfold Frontend.updatePriceClamp
  rw [max_eq_right (by norm_num)]

/-- C1 (amended: only the frontend price update floor-clamps; the backend
has no clamp and its positivity rests on the positivity of the exp
factor): starting from any positive initial price, every tick leaves the
current price strictly positive — for the backend GBM step under the
(always true of the real `Math.exp`) assumption that each tick's
`exp(priceChange)` factor is positive, and for the frontend
unconditionally, because `updatePrice` floor-clamps the result to the
positive epsilon `0.00001` even under extreme drift. -/
theorem C1_price_positive :
    (∀ (p0 : ℚ) (fs : List ℚ), 0 < p0 → (∀ f ∈ fs, 0 < f) →
      0 < fs.foldl Backend.gbmPriceStep p0) ∧
    (∀ (p0 : ℚ) (fs : List ℚ), 0 < p0 →
      0 < fs.foldl Frontend.updatePriceClamp p0) ∧
    (∀ p f : ℚ, 1 / 100000 ≤ Frontend.updatePriceClamp p f) := by
  refine ⟨fun p0 fs h hf => Backend.gbm_fold_pos fs p0 h hf,
          fun p0 fs h => Frontend.clamp_fold_pos fs p0 h,
          fun p f => le_max_right _ _⟩

/-- Witness for C1 at a concrete run: three ticks of each price process
from initial price 23/10. -/
theorem C1_price_positive_witness :
    0 < ([2, 1/2, 3] : List ℚ).foldl Backend.gbmPriceStep (23/10) ∧
    0 < ([2, -5, 3] : List ℚ).foldl Frontend.updatePriceClamp (23/10) ∧
    1 / 100000 ≤ Frontend.updatePriceClamp (23/10) (-5) := by
  refine ⟨C1_price_positive.1 (23/10) [2, 1/2, 3] (by norm_num) ?_,
          C1_price_positive.2.1 (23/10) [2, -5, 3] (by norm_num),
          C1_price_positive.2.2 (23/10) (-5)⟩
  intro f hf
  fin_cases hf <;> norm_num

lemma Backend.windowStep_ge (now m : ℚ) (w : ℚ × ℚ × Backend.Tracker) :
    m ≤ Backend.windowStep now m w := by
  simp only [Backend.windowStep]
  split_ifs
  · exact le_refl m
  · exact le_max_left _ _
  · exact le_refl m

lemma Backend.foldl_windowStep_ge (now : ℚ) (ws : List (ℚ × ℚ × Backend.Tracker)) :
    ∀ m : ℚ, m ≤ ws.foldl (Backend.windowStep now) m := by
  induction ws with
  | nil => intro m; simp
  | cons w ws ih =>
    intro m
    simp only [List.foldl_cons]
    exact le_trans (Backend.windowStep_ge now m w) (ih _)

lemma Backend.windowStep_zero_threshold (now m : ℚ) (ms : ℚ) (tr : Backend.Tracker) :
    Backend.windowStep now m (ms, 0, tr) = m := by
  simp [Backend.windowStep]

/-- C5: the amplitude controller's effective volatility multiplier is at
least `1.0` on every tick, and a lookback window whose configured threshold
is `0` contributes exactly nothing (removing it from the timeframe list
leaves the multiplier unchanged; its boost branch — and the division by the
threshold — is never reached). -/
theorem C5_amplitude_multiplier :
    (∀ (now : ℚ) (ws : List (ℚ × ℚ × Backend.Tracker)),
      1 ≤ Backend.tickMultiplier now ws) ∧
    (∀ (now : ℚ) (ws1 ws2 : List (ℚ × ℚ × Backend.Tracker)) (ms : ℚ)
      (tr : Backend.Tracker),
      Backend.tickMultiplier now (ws1 ++ (ms, 0, tr) :: ws2) =
        Backend.tickMultiplier now (ws1 ++ ws2)) := by
  constructor
  · intro now ws
    exact Backend.foldl_windowStep_ge now ws 1
  · intro now ws1 ws2 ms tr
    unfold Backend.tickMultiplier
    rw [List.foldl_append, List.foldl_append, List.foldl_cons,
        Backend.windowStep_zero_threshold]

/-- C8 counterexample: with `spread = 0` (an allowed value — the claim
quantifies over every spread) the bid ladder prices are all equal, so they
are not strictly decreasing. -/
theorem C8_counterexample :
    ¬ ((Backend.generateOrderBook 100 101 2 0 (fun _ => 1) (fun _ => 1)).bids.map
        OrderBookLevel.price).Pairwise (· > ·) := by
  simp [Backend.generateOrderBook, List.range_succ]

/-- C8 (amended: strict monotonicity requires a positive spread): the
order-book builder always returns exactly `levels` bid and `levels` ask
entries; when the configured spread is positive the bid prices strictly
decrease and the ask prices strictly increase away from the mid. -/
theorem C8_orderbook :
    ∀ (bidPrice askPrice : ℚ) (levels : ℕ) (spread : ℚ)
      (bidVols askVols : ℕ → ℕ),
      (Backend.generateOrderBook bidPrice askPrice levels spread bidVols askVols).bids.length = levels ∧
      (Backend.generateOrderBook bidPrice askPrice levels spread bidVols askVols).asks.length = levels ∧
      (0 < spread →
        ((Backend.generateOrderBook bidPrice askPrice levels spread bidVols askVols).bids.map
            OrderBookLevel.price).Pairwise (· > ·) ∧
        ((Backend.generateOrderBook bidPrice askPrice levels spread bidVols askVols).asks.map
            OrderBookLevel.price).Pairwise (· < ·)) := by
  intro bidPrice askPrice levels spread bidVols askVols
  refine ⟨by simp [Backend.generateOrderBook], by simp [Backend.generateOrderBook], ?_⟩
  intro hs
  constructor
  · simp only [Backend.generateOrderBook, List.map_map, List.pairwise_map]
    refine (List.pairwise_lt_range levels).imp ?_
    intro i j hij
    have : (i : ℚ) * spread * (1/5) < (j : ℚ) * spread * (1/5) := by
      have hij' : (i : ℚ) < (j : ℚ) := by exact_mod_cast hij
      have h5 : (0:ℚ) < spread * (1/5) := by positivity
      calc (i : ℚ) * spread * (1/5) = (i : ℚ) * (spread * (1/5)) := by ring
        _ < (j : ℚ) * (spread * (1/5)) := by exact mul_lt_mul_of_pos_right hij' h5
        _ = (j : ℚ) * spread * (1/5) := by ring
    simpa using sub_lt_sub_left this bidPrice
  · simp only [Backend.generateOrderBook, List.map_map, List.pairwise_map]
    refine (List.pairwise_lt_range levels).imp ?_
    intro i j hij
    have : (i : ℚ) * spread * (1/5) < (j : ℚ) * spread * (1/5) := by
      have hij' : (i : ℚ) < (j : ℚ) := by exact_mod_cast hij
      have h5 : (0:ℚ) < spread * (1/5) := by positivity
      calc (i : ℚ) * spread * (1/5) = (i : ℚ) * (spread * (1/5)) := by ring
        _ < (j : ℚ) * (spread * (1/5)) := by exact mul_lt_mul_of_pos_right hij' h5
        _ = (j : ℚ) * spread * (1/5) := by ring
    simpa using add_lt_add_left this askPrice

/-- Witness for C8 at `levels = 2`, `spread = 1`. -/
theorem C8_orderbook_witness :
    (Backend.generateOrderBook 100 101 2 1 (fun _ => 1) (fun _ => 1)).bids.length = 2 ∧
    ((Backend.generateOrderBook 100 101 2 1 (fun _ => 1) (fun _ => 1)).bids.map
      OrderBookLevel.price).Pairwise (· > ·) := by
  have h := C8_orderbook 100 101 2 1 (fun _ => 1) (fun _ => 1)
  exact ⟨h.1, (h.2.2 (by norm_num)).1⟩

/-- C9 counterexample: the backend `updateConfig` applies an out-of-range
field (here a negative volatility) instead of rejecting the update and
retaining the prior configuration; no `InvalidConfig` error exists in the
code. -/
theorem C9_counterexample :
    Backend.updateConfig
        { initialPrice := 11/10, volatility := 1/10, spread := 1/500,
          updateInterval := 100, orderBookLevels := 5, maxTradeSize := 10,
          maxTradesPerSecond := 2, candleInterval := 1000,
          priceChangeThreshold15s := 0, priceChangeThreshold1m := 0,
          priceChangeThreshold15m := 0, priceChangeThreshold1h := 0 }
        { volatility := some (-5) } ≠
      { initialPrice := 11/10, volatility := 1/10, spread := 1/500,
        updateInterval := 100, orderBookLevels := 5, maxTradeSize := 10,
        maxTradesPerSecond := 2, candleInterval := 1000,
        priceChangeThreshold15s := 0, priceChangeThreshold1m := 0,
        priceChangeThreshold15m := 0, priceChangeThreshold1h := 0 } ∧
    (Backend.updateConfig
        { initialPrice := 11/10, volatility := 1/10, spread := 1/500,
          updateInterval := 100, orderBookLevels := 5, maxTradeSize := 10,
          maxTradesPerSecond := 2, candleInterval := 1000,
          priceChangeThreshold15s := 0, priceChangeThreshold1m := 0,
          priceChangeThreshold15m := 0, priceChangeThreshold1h := 0 }
        { volatility := some (-5) }).volatility = -5 := by
  constructor
  · intro h
    have := congrArg Backend.Config.volatility h
    norm_num [Backend.updateConfig] at this
  · simp [Backend.updateConfig]

/-- C9 (amended): a configuration update is never rejected — `updateConfig`
merge-replaces the configuration unconditionally, applying every provided
field (in range or not) and keeping every absent field; no validation is
performed and no `InvalidConfig` error is surfaced. -/
theorem C9_updateConfig_merge :
    ∀ (cfg : Backend.Config) (u : Backend.ConfigUpdate),
      (Backend.updateConfig cfg u).initialPrice = u.initialPrice.getD cfg.initialPrice ∧
      (Backend.updateConfig cfg u).volatility = u.volatility.getD cfg.volatility ∧
      (Backend.updateConfig cfg u).spread = u.spread.getD cfg.spread ∧
      (Backend.updateConfig cfg u).updateInterval = u.updateInterval.getD cfg.updateInterval ∧
      (Backend.updateConfig cfg u).orderBookLevels = u.orderBookLevels.getD cfg.orderBookLevels ∧
      (Backend.updateConfig cfg u).maxTradeSize = u.maxTradeSize.getD cfg.maxTradeSize ∧
      (Backend.updateConfig cfg u).maxTradesPerSecond = u.maxTradesPerSecond.getD cfg.maxTradesPerSecond ∧
      (Backend.updateConfig cfg u).candleInterval = u.candleInterval.getD cfg.candleInterval ∧
      (Backend.updateConfig cfg u).priceChangeThreshold15s = u.priceChangeThreshold15s.getD cfg.priceChangeThreshold15s ∧
      (Backend.updateConfig cfg u).priceChangeThreshold1m = u.priceChangeThreshold1m.getD cfg.priceChangeThreshold1m ∧
      (Backend.updateConfig cfg u).priceChangeThreshold15m = u.priceChangeThreshold15m.getD cfg.priceChangeThreshold15m ∧
      (Backend.updateConfig cfg u).priceChangeThreshold1h = u.priceChangeThreshold1h.getD cfg.priceChangeThreshold1h := by
  intro cfg u
  simp [Backend.updateConfig]

/-- C2: `executeTrade` validation and fill semantics.  If the rate limit is
hit the result is `rateLimited` and the whole state (trade log,
`lastTradeTime`, price state) is unchanged; otherwise if `|size|` exceeds
`maxTradeSize` the result is `sizeExceeded` with the state unchanged;
otherwise the trade fills at `currentPrice + spread/2` for a buy and
`currentPrice - spread/2` for a sell, with `value = |size| * price`, is
appended to the (50-bounded) log, and `lastTradeTime` becomes `now`. -/
theorem C2_executeTrade_spec :
    ∀ (st : Backend.TradeState) (now : ℚ) (side : Side) (size : ℚ),
      (now - st.lastTradeTime < 1000 / st.maxTradesPerSecond →
        Backend.executeTrade st now side size = (.rateLimited, st)) ∧
      (¬ now - st.lastTradeTime < 1000 / st.maxTradesPerSecond →
        |size| > st.maxTradeSize →
        Backend.executeTrade st now side size = (.sizeExceeded, st)) ∧
      (¬ now - st.lastTradeTime < 1000 / st.maxTradesPerSecond →
        ¬ |size| > st.maxTradeSize →
        Backend.executeTrade st now side size =
          (let price : ℚ :=
            match side with
            | .buy => st.currentPrice + st.spread / 2
            | .sell => st.currentPrice - st.spread / 2
          let t : Trade :=
            { id := now, timestamp := now, side := side, size := size,
              price := price, value := |size| * price }
          let ts := st.trades ++ [t]
          (.success t,
           { st with
             trades := if ts.length > 50 then ts.drop (ts.length - 50) else ts,
             lastTradeTime := now }))) := by
  intro st now side size
  refine ⟨fun h1 => ?_, fun h1 h2 => ?_, fun h1 h2 => ?_⟩
  · simp [Backend.executeTrade, h1]
  · simp [Backend.executeTrade, h1, h2]
  · simp [Backend.executeTrade, h1, h2]

/-- Witness for C2: a concrete simulator with price 100, spread 2, max size
10 and 1 trade/second.  At `now = 500` the attempt is rate-limited and the
state is untouched; at `now = 1000` a buy of size 5 fills at 101 with value
505 and `lastTradeTime` becomes 1000; an oversized trade at `now = 1000` is
rejected with the state untouched. -/
theorem C2_executeTrade_spec_witness :
    Backend.executeTrade (Backend.initTradeState 100 2 10 1) 500 .buy 5 =
      (.rateLimited, Backend.initTradeState 100 2 10 1) ∧
    Backend.executeTrade (Backend.initTradeState 100 2 10 1) 1000 .buy 11 =
      (.sizeExceeded, Backend.initTradeState 100 2 10 1) ∧
    Backend.executeTrade (Backend.initTradeState 100 2 10 1) 1000 .buy 5 =
      (.success { id := 1000, timestamp := 1000, side := .buy, size := 5,
                  price := 101, value := 505 },
       { Backend.initTradeState 100 2 10 1 with
         trades := [{ id := 1000, timestamp := 1000, side := .buy, size := 5,
                      price := 101, value := 505 }],
         lastTradeTime := 1000 }) := by
  have h1 := (C2_executeTrade_spec (Backend.initTradeState 100 2 10 1) 500 .buy 5).1
    (by norm_num [Backend.initTradeState])
  have h2 := (C2_executeTrade_spec (Backend.initTradeState 100 2 10 1) 1000 .buy 11).2.1
    (by norm_num [Backend.initTradeState]) (by norm_num [Backend.initTradeState])
  have h3 := (C2_executeTrade_spec (Backend.initTradeState 100 2 10 1) 1000 .buy 5).2.2
    (by norm_num [Backend.initTradeState]) (by norm_num [Backend.initTradeState])
  refine ⟨h1, h2, ?_⟩
  rw [h3]
  norm_num [Backend.initTradeState]

/-- The OHLC well-formedness of a single candle. -/
def candleInv (c : Candle) : Prop :=
  c.low ≤ c.«open» ∧ c.«open» ≤ c.high ∧ c.low ≤ c.close ∧ c.close ≤ c.high

/-- Aggregator-state invariant: every closed candle and the current open
candle are OHLC-well-formed, and the current candle's bucket start agrees
with `lastCandleTime`. -/
def aggInv (st : Backend.AggState) : Prop :=
  (∀ c ∈ st.series, candleInv c) ∧
  ∀ c, st.current = some c → candleInv c ∧ c.timestamp = st.lastCandleTime

lemma candleInv_fresh (t p : ℚ) (v : ℕ) :
    candleInv { timestamp := t, «open» := p, high := p, low := p, close := p,
                volume := v } := by
  exact ⟨le_refl p, le_refl p, le_refl p, le_refl p⟩

lemma candleInv_update (c : Candle) (p : ℚ) (vi : ℕ) (h : candleInv c) :
    candleInv { c with high := max c.high p, low := min c.low p, close := p,
                       volume := c.volume + vi } := by
  obtain ⟨h1, h2, _, _⟩ := h
  exact ⟨le_trans (min_le_left _ _) h1, le_trans h2 (le_max_left _ _),
         min_le_right _ _, le_max_right _ _⟩

lemma Backend.updateCandleForInterval_aggInv
    (interval now price : ℚ) (vol0 volInc : ℕ) (st : Backend.AggState)
    (h : aggInv st) :
    aggInv (Backend.updateCandleForInterval interval now price vol0 volInc st) := by
  obtain ⟨hser, hcur⟩ := h
  unfold Backend.updateCandleForInterval
  by_cases hnew : ((⌊now / interval⌋ : ℤ) : ℚ) * interval > st.lastCandleTime
  · simp only [hnew, if_pos]
    constructor
    · cases hc : st.current with
      | none => simpa [hc] using hser
      | some c =>
        intro d hd
        simp only [hc] at hd
        split_ifs at hd with htrim
        · exact (List.mem_append.mp (List.drop_subset _ _ hd)).elim
            (fun h' => hser d h')
            (fun h' => by
              simp only [List.mem_singleton] at h'
              exact h' ▸ (hcur c hc).1)
        · exact (List.mem_append.mp hd).elim
            (fun h' => hser d h')
            (fun h' => by
              simp only [List.mem_singleton] at h'
              exact h' ▸ (hcur c hc).1)
    · intro d hd
      simp only [Option.some.injEq] at hd
      subst hd
      exact ⟨candleInv_fresh _ _ _, rfl⟩
  · simp only [hnew, if_neg, not_false_iff]
    cases hc : st.current with
    | none => exact ⟨hser, hcur⟩
    | some c =>
      refine ⟨hser, ?_⟩
      intro d hd
      simp only [Option.some.injEq] at hd
      subst hd
      exact ⟨candleInv_update c price volInc (hcur c hc).1, (hcur c hc).2⟩

lemma Backend.runCandles_aggInv (interval : ℚ) (xs : List (ℚ × ℚ × ℕ × ℕ)) :
    ∀ st : Backend.AggState, aggInv st → aggInv (Backend.runCandles interval st xs) := by
  induction xs with
  | nil => intro st h; simpa [Backend.runCandles] using h
  | cons x xs ih =>
    intro st h
    simp only [Backend.runCandles, List.foldl_cons] at ih ⊢
    exact ih _ (Backend.updateCandleForInterval_aggInv interval x.1 x.2.1 x.2.2.1 x.2.2.2 st h)

/-- C3: every candle ever closed into the series or held as the current open
candle satisfies `low ≤ open ≤ high` and `low ≤ close ≤ high` (for every
run of the aggregator from its constructor state), and an in-candle update
(same bucket) never decreases the candle's volume. -/
theorem C3_candle_invariant :
    (∀ (interval : ℚ) (xs : List (ℚ × ℚ × ℕ × ℕ)),
      aggInv (Backend.runCandles interval Backend.initAggState xs)) ∧
    (∀ (interval now price : ℚ) (vol0 volInc : ℕ) (st : Backend.AggState)
      (c c' : Candle), aggInv st → st.current = some c →
      (Backend.updateCandleForInterval interval now price vol0 volInc st).current = some c' →
      c'.timestamp = c.timestamp →
      c.volume ≤ c'.volume) := by
  constructor
  · intro interval xs
    exact Backend.runCandles_aggInv interval xs Backend.initAggState
      ⟨by simp [Backend.initAggState], by simp [Backend.initAggState]⟩
  · intro interval now price vol0 volInc st c c' hinv hc hc' hts
    unfold Backend.updateCandleForInterval at hc'
    by_cases hnew : ((⌊now / interval⌋ : ℤ) : ℚ) * interval > st.lastCandleTime
    · simp only [hnew, if_pos, Option.some.injEq] at hc'
      have hts' : c.timestamp = st.lastCandleTime := (hinv.2 c hc).2
      rw [← hc'] at hts
      simp only [hts'] at hts
      exact absurd hts (ne_of_gt hnew)
    · simp only [hnew, if_neg, not_false_iff, hc, Option.some.injEq] at hc'
      rw [← hc']
      exact Nat.le_add_right _ _

/-- Witness for C3: a two-tick run whose state satisfies the invariant, and
a concrete in-candle update raising the volume from 5 to 8. -/
theorem C3_candle_invariant_witness :
    aggInv (Backend.runCandles 1000 Backend.initAggState
      [(1000, 1, 5, 3), (1400, 6/5, 0, 3)]) ∧
    (5 : ℕ) ≤ 8 := by
  constructor
  · exact C3_candle_invariant.1 1000 [(1000, 1, 5, 3), (1400, 6/5, 0, 3)]
  · have h := C3_candle_invariant.2 1000 1400 (6/5) 0 3
      { series := [], current := some { timestamp := 1000, «open» := 1, high := 1,
                                        low := 1, close := 1, volume := 5 },
        lastCandleTime := 1000 }
      { timestamp := 1000, «open» := 1, high := 1, low := 1, close := 1, volume := 5 }
      { timestamp := 1000, «open» := 1, high := 6/5, low := 1, close := 6/5, volume := 8 }
      ⟨by simp, by intro c hc; simp at hc; subst hc; exact ⟨⟨le_refl 1, le_refl 1, le_refl 1, le_refl 1⟩, rfl⟩⟩
      rfl
      (by norm_num [Backend.updateCandleForInterval])
      rfl
    exact h

lemma Backend.updateCandleForInterval_len_le
    (interval now price : ℚ) (vol0 volInc : ℕ) (st : Backend.AggState)
    (h : st.series.length ≤ 200) :
    (Backend.updateCandleForInterval interval now price vol0 volInc st).series.length ≤ 200 := by
  unfold Backend.updateCandleForInterval
  by_cases hnew : ((⌊now / interval⌋ : ℤ) : ℚ) * interval > st.lastCandleTime
  · simp only [hnew, if_pos]
    cases hc : st.current with
    | none => simpa using h
    | some c =>
      simp only
      split_ifs with htrim
      · simp only [List.length_drop]
        omega
      · simp only [List.length_append, List.length_singleton] at htrim ⊢
        omega
  · simp only [hnew, if_neg, not_false_iff]
    cases hc : st.current with
    | none => simpa using h
    | some c => simpa using h

lemma Backend.runCandles_len_le (interval : ℚ) (xs : List (ℚ × ℚ × ℕ × ℕ)) :
    ∀ st : Backend.AggState, st.series.length ≤ 200 →
      (Backend.runCandles interval st xs).series.length ≤ 200 := by
  induction xs with
  | nil => intro st h; simpa [Backend.runCandles] using h
  | cons x xs ih =>
    intro st h
    simp only [Backend.runCandles, List.foldl_cons] at ih ⊢
    exact ih _ (Backend.updateCandleForInterval_len_le interval x.1 x.2.1 x.2.2.1 x.2.2.2 st h)

lemma Frontend.updateCandle_len_le (ts p : ℚ) (vol0 volInc : ℕ)
    (st : Frontend.CandleState) (h : st.candles.length ≤ 500) :
    (Frontend.updateCandle ts p vol0 volInc st).candles.length ≤ 500 := by
  unfold Frontend.updateCandle
  cases hl : st.candles.getLast? with
  | none => simp
  | some last =>
    have hne : st.candles ≠ [] := by
      intro h0; rw [h0] at hl; simp at hl
    have hpos : 1 ≤ st.candles.length := List.length_pos.mpr hne
    simp only
    split_ifs with h1 h2
    · simp only [List.length_drop]
      omega
    · simp only [List.length_append, List.length_singleton] at h2 ⊢
      omega
    · simp only [List.length_append, List.length_singleton, List.length_dropLast]
      omega

lemma Frontend.candleList_len_le (xs : List (ℚ × ℚ × ℕ × ℕ)) :
    ∀ st : Frontend.CandleState, st.candles.length ≤ 500 →
      (Frontend.runCandles st xs).candles.length ≤ 500 := by
  induction xs with
  | nil => intro st h; simpa [Frontend.runCandles] using h
  | cons x xs ih =>
    intro st h
    simp only [Frontend.runCandles, List.foldl_cons] at ih ⊢
    exact ih _ (Frontend.updateCandle_len_le x.1 x.2.1 x.2.2.1 x.2.2.2 st h)

lemma Backend.executeTrade_trades_le (st : Backend.TradeState) (now : ℚ)
    (side : Side) (size : ℚ) (h : st.trades.length ≤ 50) :
    (Backend.executeTrade st now side size).2.trades.length ≤ 50 := by
  unfold Backend.executeTrade
  split_ifs with h1 h2
  · simpa using h
  · simpa using h
  · simp only
    split_ifs with h3
    · simp only [List.length_drop]
      omega
    · simp only [List.length_append, List.length_singleton] at h3 ⊢
      omega

lemma Backend.runTrades_trades_le (xs : List (ℚ × Side × ℚ)) :
    ∀ st : Backend.TradeState, st.trades.length ≤ 50 →
      (Backend.runTrades st xs).trades.length ≤ 50 := by
  induction xs with
  | nil => intro st h; simpa [Backend.runTrades] using h
  | cons x xs ih =>
    intro st h
    simp only [Backend.runTrades, List.foldl_cons] at ih ⊢
    exact ih _ (Backend.executeTrade_trades_le st x.1 x.2.1 x.2.2 h)

/-- The tick stream used to exercise the frontend candle cap: tick `k`
arrives at `t = 1000*k` ms with price 1 and zero random volumes. -/
def tickInputs (n : ℕ) : List (ℚ × ℚ × ℕ × ℕ) :=
  (List.range n).map (fun k => (1000 * (k : ℚ), 1, 0, 0))

lemma tickInputs_succ (n : ℕ) :
    tickInputs (n + 1) = tickInputs n ++ [(1000 * (n : ℚ), 1, 0, 0)] := by
  simp [tickInputs, List.range_succ]

lemma Frontend.runCandles_append (st : Frontend.CandleState)
    (xs ys : List (ℚ × ℚ × ℕ × ℕ)) :
    Frontend.runCandles st (xs ++ ys) =
      Frontend.runCandles (Frontend.runCandles st xs) ys := by
  simp [Frontend.runCandles, List.foldl_append]

lemma floorBucket (k : ℕ) :
    ((⌊(1000 * (k : ℚ)) / 1000⌋ : ℤ) : ℚ) * 1000 = 1000 * (k : ℚ) := by
  have h : (1000 * (k : ℚ)) / 1000 = (k : ℚ) := by
    field_simp
  rw [h, Int.floor_natCast]
  push_cast
  ring

lemma Frontend.updateCandle_new (ts p : ℚ) (vol0 volInc : ℕ)
    (st : Frontend.CandleState) (last : Candle)
    (hl : st.candles.getLast? = some last)
    (hlt : last.timestamp < ((⌊ts / 1000⌋ : ℤ) : ℚ) * 1000)
    (hlen : st.candles.length ≤ 499) :
    Frontend.updateCandle ts p vol0 volInc st =
      ⟨st.candles ++
        [{ timestamp := ((⌊ts / 1000⌋ : ℤ) : ℚ) * 1000, «open» := p, high := p,
           low := p, close := p, volume := vol0 }]⟩ := by
  simp only [Frontend.updateCandle, hl]
  rw [if_pos hlt, if_neg]
  simp only [List.length_append, List.length_singleton]
  omega

lemma Frontend.runCandles_growth :
    ∀ n : ℕ, n ≤ 498 →
      (Frontend.runCandles ⟨[]⟩ (tickInputs (n + 1))).candles.length = n + 1 ∧
      (Frontend.runCandles ⟨[]⟩ (tickInputs (n + 1))).candles.getLast?.map
        Candle.timestamp = some (1000 * (n : ℚ)) := by
  intro n
  induction n with
  | zero =>
    intro _
    have h00 : tickInputs 0 = [] := by simp [tickInputs]
    rw [tickInputs_succ 0, h00, List.nil_append]
    norm_num [Frontend.runCandles, Frontend.updateCandle]
  | succ m ih =>
    intro hm
    obtain ⟨hlen, hlast⟩ := ih (by omega)
    obtain ⟨last, hlast', hts⟩ := Option.map_eq_some'.mp hlast
    have hlt : last.timestamp <
        ((⌊(1000 * ((m + 1 : ℕ) : ℚ)) / 1000⌋ : ℤ) : ℚ) * 1000 := by
      rw [floorBucket (m + 1), hts]
      push_cast
      linarith
    rw [tickInputs_succ (m + 1), Frontend.runCandles_append]
    set st := Frontend.runCandles ⟨[]⟩ (tickInputs (m + 1)) with hst
    simp only [Frontend.runCandles, List.foldl_cons, List.foldl_nil]
    rw [Frontend.updateCandle_new (1000 * ((m + 1 : ℕ) : ℚ)) 1 0 0 st last
          hlast' hlt (by omega)]
    constructor
    · simp [hlen]
    · rw [List.getLast?_concat]
      simp only [Option.map_some']
      rw [floorBucket (m + 1)]

/-- C4 counterexample: the frontend simulator's candle list (cited as one of
the claim's sources) is capped at 500, not 200 — after 201 ticks in distinct
1-second buckets it holds 201 candles. -/
theorem C4_counterexample :
    200 < (Frontend.runCandles ⟨[]⟩ (tickInputs 201)).candles.length := by
  have h := (Frontend.runCandles_growth 200 (by norm_num)).1
  norm_num at h
  omega

/-- C4 (amended: the 200-candle cap is the backend's; the frontend candle
list is capped at 500 instead, and can exceed 200): for every run from the
constructor state, the backend's per-interval candle series never exceeds
200 entries, the frontend's candle list never exceeds 500 entries, and the
backend trade log never exceeds 50 entries. -/
theorem C4_bounded_buffers :
    (∀ (interval : ℚ) (xs : List (ℚ × ℚ × ℕ × ℕ)),
      (Backend.runCandles interval Backend.initAggState xs).series.length ≤ 200) ∧
    (∀ xs : List (ℚ × ℚ × ℕ × ℕ),
      (Frontend.runCandles ⟨[]⟩ xs).candles.length ≤ 500) ∧
    (∀ (price spread maxSize mtps : ℚ) (xs : List (ℚ × Side × ℚ)),
      (Backend.runTrades (Backend.initTradeState price spread maxSize mtps) xs).trades.length ≤ 50) := by
  refine ⟨fun interval xs => ?_, fun xs => ?_, fun price spread maxSize mtps xs => ?_⟩
  · exact Backend.runCandles_len_le interval xs Backend.initAggState
      (by simp [Backend.initAggState])
  · exact Frontend.candleList_len_le xs ⟨[]⟩ (by simp)
  · exact Backend.runTrades_trades_le xs (Backend.initTradeState price spread maxSize mtps)
      (by simp [Backend.initTradeState])

/-- C6 counterexample: an update whose `patternType` field EQUALS the
current pattern type still resets the pattern state (the code tests only
presence of the field, not change), so "resets exactly when it changes
patternType" is false.  Concretely: current type `uptrend`, progress `1/2`;
updating with `patternType = uptrend` leaves the type unchanged yet zeroes
the progress and restamps the start time. -/
theorem C6_counterexample :
    (Frontend.updateConfig
        { config := { initialPrice := 1, volatility := 1/1000, spread := 1/1000,
                      updateInterval := 100, orderBookLevels := 5,
                      patternType := some .uptrend, patternStrength := some (1/2),
                      patternDuration := some 30000 },
          currentPrice := 2, patternStartTime := 100, patternProgress := 1/2,
          patternBasePrice := 1 } 999
        { patternType := some .uptrend }).config.patternType =
      (some MarketPatternType.uptrend) ∧
    (Frontend.updateConfig
        { config := { initialPrice := 1, volatility := 1/1000, spread := 1/1000,
                      updateInterval := 100, orderBookLevels := 5,
                      patternType := some .uptrend, patternStrength := some (1/2),
                      patternDuration := some 30000 },
          currentPrice := 2, patternStartTime := 100, patternProgress := 1/2,
          patternBasePrice := 1 } 999
        { patternType := some .uptrend }).patternProgress = 0 ∧
    (Frontend.updateConfig
        { config := { initialPrice := 1, volatility := 1/1000, spread := 1/1000,
                      updateInterval := 100, orderBookLevels := 5,
                      patternType := some .uptrend, patternStrength := some (1/2),
                      patternDuration := some 30000 },
          currentPrice := 2, patternStartTime := 100, patternProgress := 1/2,
          patternBasePrice := 1 } 999
        { patternType := some .uptrend }).patternStartTime = 999 ∧
    (1 : ℚ)/2 ≠ 0 := by
  refine ⟨?_, ?_, ?_, by norm_num⟩ <;>
    simp [Frontend.updateConfig, Option.orElse]

/-- C6 (amended: the reset fires exactly when the update CONTAINS a
`patternType` field, changed or not): `updateConfig` resets
`patternStartTime` to `now`, `patternProgress` to 0 and `patternBasePrice`
to the current price precisely when the update carries a `patternType`;
an update without one leaves the pattern state untouched.  Duration expiry
never clears the pattern: the progress computed on a tick clamps at 1
(and equals 1 from the expiry point on), and whenever a pattern type is
configured the tick drift still includes the pattern drift — a function of
the clamped progress only — indefinitely. -/
theorem C6_pattern_reset :
    (∀ (st : Frontend.SimState) (now : ℚ) (u : Frontend.ConfigUpdate),
      u.patternType.isSome →
        (Frontend.updateConfig st now u).patternStartTime = now ∧
        (Frontend.updateConfig st now u).patternProgress = 0 ∧
        (Frontend.updateConfig st now u).patternBasePrice = st.currentPrice) ∧
    (∀ (st : Frontend.SimState) (now : ℚ) (u : Frontend.ConfigUpdate),
      u.patternType = none →
        (Frontend.updateConfig st now u).patternStartTime = st.patternStartTime ∧
        (Frontend.updateConfig st now u).patternProgress = st.patternProgress ∧
        (Frontend.updateConfig st now u).patternBasePrice = st.patternBasePrice) ∧
    (∀ (now start : ℚ) (d : Option ℚ), Frontend.patternProgressAt now start d ≤ 1) ∧
    (∀ (now start : ℚ) (d : Option ℚ), 0 < jsOr d 30000 →
      jsOr d 30000 ≤ now - start → Frontend.patternProgressAt now start d = 1) ∧
    (∀ (cfg : Frontend.SimulatorConfig) (progress basePrice price ns : ℚ),
      cfg.patternType.isSome →
        Frontend.tickDrift cfg progress basePrice price ns =
          1/10000 + Frontend.getPatternDrift cfg progress basePrice price ns) := by
  refine ⟨?_, ?_, ?_, ?_, ?_⟩
  · intro st now u h
    simp [Frontend.updateConfig, h]
  · intro st now u h
    simp [Frontend.updateConfig, h]
  · intro now start d
    exact min_le_left _ _
  · intro now start d hpos hle
    unfold Frontend.patternProgressAt
    have h1 : (1 : ℚ) ≤ (now - start) / jsOr d 30000 := (one_le_div hpos).mpr hle
    exact min_eq_left h1
  · intro cfg progress basePrice price ns h
    simp [Frontend.tickDrift, h]

/-- Witness for C6: concrete applications of the amended rules — an update
carrying `patternType = downtrend` at `now = 5` resets the pattern state of
a simulator sitting at price 7; and 40 s past a pattern start with the
default 30 s duration, the computed progress is exactly 1. -/
theorem C6_pattern_reset_witness :
    ((Frontend.updateConfig
        { config := { initialPrice := 1, volatility := 1/1000, spread := 1/1000,
                      updateInterval := 100, orderBookLevels := 5 },
          currentPrice := 7, patternStartTime := 0, patternProgress := 3/4,
          patternBasePrice := 1 } 5
        { patternType := some .downtrend }).patternStartTime = 5 ∧
     (Frontend.updateConfig
        { config := { initialPrice := 1, volatility := 1/1000, spread := 1/1000,
                      updateInterval := 100, orderBookLevels := 5 },
          currentPrice := 7, patternStartTime := 0, patternProgress := 3/4,
          patternBasePrice := 1 } 5
        { patternType := some .downtrend }).patternProgress = 0 ∧
     (Frontend.updateConfig
        { config := { initialPrice := 1, volatility := 1/1000, spread := 1/1000,
                      updateInterval := 100, orderBookLevels := 5 },
          currentPrice := 7, patternStartTime := 0, patternProgress := 3/4,
          patternBasePrice := 1 } 5
        { patternType := some .downtrend }).patternBasePrice = 7) ∧
    Frontend.patternProgressAt 40000 0 none = 1 := by
  constructor
  · exact C6_pattern_reset.1
      { config := { initialPrice := 1, volatility := 1/1000, spread := 1/1000,
                    updateInterval := 100, orderBookLevels := 5 },
        currentPrice := 7, patternStartTime := 0, patternProgress := 3/4,
        patternBasePrice := 1 } 5 { patternType := some .downtrend } rfl
  · exact C6_pattern_reset.2.2.2.1 40000 0 none (by norm_num [jsOr])
      (by norm_num [jsOr])

/-- C7 counterexample: feeding prices `[1, 1.2, 0.9]` at the literal
timestamps `[0, 400, 999]` to the backend aggregator (bucket 1000 ms,
constructor state) produces NO candle at all: the first tick's bucket start
`0` is not strictly greater than the initial `lastCandleTime = 0`, and no
current candle exists to update, so every tick is dropped. -/
theorem C7_counterexample :
    Backend.runCandles 1000 Backend.initAggState
      [(0, 1, 5, 3), (400, 6/5, 0, 3), (999, 9/10, 0, 2)] =
    { series := [], current := none, lastCandleTime := 0 } := by
  simp [Backend.runCandles, Backend.updateCandleForInterval, Backend.initAggState]
  norm_num

/-- C7 (amended: the scenario holds once the timestamps avoid the
simulator's time origin, e.g. shifted by one bucket): feeding prices
`[1, 1.2, 0.9]` at timestamps `[1000, 1400, 1999]` produces exactly one
candle — the current open candle — with `open = 1`, `high = 1.2`,
`low = 0.9`, `close = 0.9`. -/
theorem C7_candle_scenario :
    Backend.runCandles 1000 Backend.initAggState
      [(1000, 1, 5, 3), (1400, 6/5, 0, 3), (1999, 9/10, 0, 2)] =
    { series := [],
      current := some { timestamp := 1000, «open» := 1, high := 6/5,
                        low := 9/10, close := 9/10, volume := 10 },
      lastCandleTime := 1000 } := by
  norm_num [Backend.runCandles, Backend.updateCandleForInterval, Backend.initAggState]

/-- Trade-log invariant: consecutive logged trades are at least the minimum
inter-trade interval apart, and no logged trade is newer than the
rate-limit clock. -/
def tradeLogInv (st : Backend.TradeState) : Prop :=
  st.trades.Pairwise
    (fun a b => a.timestamp + 1000 / st.maxTradesPerSecond ≤ b.timestamp) ∧
  ∀ t ∈ st.trades, t.timestamp ≤ st.lastTradeTime

lemma Backend.tradeStep_inv (st : Backend.TradeState) (x : ℚ × Side × ℚ)
    (hm : 0 < st.maxTradesPerSecond) (h : tradeLogInv st) :
    tradeLogInv (Backend.tradeStep st x) ∧
      (Backend.tradeStep st x).maxTradesPerSecond = st.maxTradesPerSecond := by
  obtain ⟨hpw, hle⟩ := h
  unfold Backend.tradeStep Backend.executeTrade
  split_ifs with h1 h2
  · exact ⟨⟨hpw, hle⟩, rfl⟩
  · exact ⟨⟨hpw, hle⟩, rfl⟩
  · have hgap : 0 < 1000 / st.maxTradesPerSecond := by positivity
    have hnow : st.lastTradeTime + 1000 / st.maxTradesPerSecond ≤ x.1 := by
      push_neg at h1
      linarith
    constructor
    · constructor
      · simp only
        split_ifs with htrim
        · refine List.Pairwise.sublist (List.drop_sublist _ _) ?_
          rw [List.pairwise_append]
          refine ⟨hpw, List.pairwise_singleton _ _, ?_⟩
          intro a ha b hb
          simp only [List.mem_singleton] at hb
          subst hb
          have := hle a ha
          simp only
          linarith
        · rw [List.pairwise_append]
          refine ⟨hpw, List.pairwise_singleton _ _, ?_⟩
          intro a ha b hb
          simp only [List.mem_singleton] at hb
          subst hb
          have := hle a ha
          simp only
          linarith
      · intro t ht
        simp only at ht ⊢
        split_ifs at ht with htrim
        · rcases List.mem_append.mp (List.drop_subset _ _ ht) with hmem | hmem
          · have := hle t hmem
            linarith
          · simp only [List.mem_singleton] at hmem
            subst hmem
            exact le_refl _
        · rcases List.mem_append.mp ht with hmem | hmem
          · have := hle t hmem
            linarith
          · simp only [List.mem_singleton] at hmem
            subst hmem
            exact le_refl _
    · rfl

lemma Backend.runTrades_inv (xs : List (ℚ × Side × ℚ)) :
    ∀ st : Backend.TradeState, 0 < st.maxTradesPerSecond → tradeLogInv st →
      tradeLogInv (Backend.runTrades st xs) ∧
        (Backend.runTrades st xs).maxTradesPerSecond = st.maxTradesPerSecond := by
  induction xs with
  | nil => intro st _ h; exact ⟨h, rfl⟩
  | cons x xs ih =>
    intro st hm h
    have hstep := Backend.tradeStep_inv st x hm h
    simp only [Backend.runTrades, List.foldl_cons] at ih ⊢
    have := ih (Backend.tradeStep st x) (hstep.2 ▸ hm) hstep.1
    exact ⟨this.1, this.2.trans hstep.2⟩

/-- C10: under a fixed positive `maxTradesPerSecond`, any two trades in the
log of a run from the constructor state are at least
`1000/maxTradesPerSecond` ms apart, so the log's timestamps are strictly
increasing; and a rejected attempt (rate-limited or size-exceeded) leaves
the whole state — `lastTradeTime` included — unchanged. -/
theorem C10_rate_limit_spacing :
    ∀ (price spread maxSize mtps : ℚ) (xs : List (ℚ × Side × ℚ)),
      0 < mtps →
      ((Backend.runTrades (Backend.initTradeState price spread maxSize mtps) xs).trades.Pairwise
          (fun a b => a.timestamp + 1000 / mtps ≤ b.timestamp) ∧
        (Backend.runTrades (Backend.initTradeState price spread maxSize mtps) xs).trades.Pairwise
          (fun a b => a.timestamp < b.timestamp)) ∧
      (∀ (st : Backend.TradeState) (now : ℚ) (side : Side) (size : ℚ),
        (Backend.executeTrade st now side size).1 = .rateLimited ∨
          (Backend.executeTrade st now side size).1 = .sizeExceeded →
        (Backend.executeTrade st now side size).2 = st) := by
  intro price spread maxSize mtps xs hm
  constructor
  · have hinit : tradeLogInv (Backend.initTradeState price spread maxSize mtps) := by
      constructor <;> simp [Backend.initTradeState, tradeLogInv]
    have hm' : 0 < (Backend.initTradeState price spread maxSize mtps).maxTradesPerSecond := hm
    obtain ⟨⟨hpw, _⟩, hpres⟩ :=
      Backend.runTrades_inv xs (Backend.initTradeState price spread maxSize mtps) hm' hinit
    have hpres' : (Backend.runTrades (Backend.initTradeState price spread maxSize mtps) xs).maxTradesPerSecond = mtps := hpres
    rw [hpres'] at hpw
    refine ⟨hpw, hpw.imp ?_⟩
    intro a b hab
    have hgap : 0 < 1000 / mtps := by positivity
    linarith
  · intro st now side size h
    unfold Backend.executeTrade at h ⊢
    split_ifs at h ⊢ with h1 h2
    · rfl
    · rfl
    · simp at h

/-- Witness for C10: with 1 trade/second, attempts at 1000, 1500 and 2000 ms
leave a log whose entries are ≥ 1000 ms apart; a rate-limited attempt at
500 ms leaves the constructor state untouched. -/
theorem C10_rate_limit_spacing_witness :
    (Backend.runTrades (Backend.initTradeState 100 0 10 1)
        [(1000, .buy, 1), (1500, .buy, 1), (2000, .buy, 1)]).trades.Pairwise
      (fun a b => a.timestamp + 1000 / 1 ≤ b.timestamp) ∧
    (Backend.executeTrade (Backend.initTradeState 100 0 10 1) 500 .buy 1).2 =
      Backend.initTradeState 100 0 10 1 := by
  have h := C10_rate_limit_spacing 100 0 10 1
    [(1000, .buy, 1), (1500, .buy, 1), (2000, .buy, 1)] (by norm_num)
  refine ⟨h.1.1, h.2 (Backend.initTradeState 100 0 10 1) 500 .buy 1 (Or.inl ?_)⟩
  norm_num [Backend.executeTrade, Backend.initTradeState]
